import Mathlib

/-!
Formal model of the repository fragment: the DBMI client wrapper
db_drop_column (src/lib/db/dbmi_client/c_drop_col.c) expressed over the
Call Protocol of the specification, and the r.surf.random CLI tool
(src/raster/r.surf.random/main.c).  The C functions are shallowly
embedded as executable Lean definitions; the behaviour of the channel and
of the external library calls is an explicit parameter, and each run
records the trace of observable actions it performs.
-/

deriving instance DecidableEq for Except

namespace Grass

namespace Dbmi

/-- Status code DB_OK of the DBMI library.  The numeric constants live in
a header that is not part of the visible fragment; per the spec, success
is one distinguished code of the status enumeration. -/
def DB_OK : Int := 0

/-- Generic failure status DB_FAILED of the DBMI library. -/
def DB_FAILED : Int := 1

/-- Error code DB_PROTOCOL_ERR, reported when channel or wire-codec I/O
fails mid-call. -/
def DB_PROTOCOL_ERR : Int := -2

/-- Procedure identifier of the drop-column procedure.  Its numeric value
comes from a header outside the visible fragment; the claims only need it
to be the one identifier the wrapper writes in its begin-call. -/
def DB_PROC_DROP_COLUMN : Int := 18

/-- One Call Protocol primitive as performed on the channel, recorded in
the order the wrapper invokes them.  Modelled from the spec: section 4.3
lists begin_call, send_arg, recv_status and recv_result as the primitives
of a procedure call; the recv_status primitive either yields the status
value the driver sent (ok) or reports a channel or codec error code
(error). -/
inductive Prim where
  | begin_call (procId : Int)
  | send_arg (s : String)
  | recv_status (outcome : Except Int Int)
  | recv_result
  deriving DecidableEq

/-- Behaviour of the channel and the driver during one drop-column call.
Modelled from the spec: the client primitives behind the
DB_START_PROCEDURE_CALL, DB_SEND_STRING and DB_RECV_RETURN_CODE macros
are outside the visible fragment; per sections 4.2 and 7 each write
either succeeds (code DB_OK) or reports an error code, and the status
read either yields the status value or reports an error code. -/
structure Wire where
  beginCode : Int
  sendTableCode : Int
  sendColumnCode : Int
  statusOutcome : Except Int Int
  deriving DecidableEq

/-- Result of one execution of the wrapper: the int value the C function
returns and the trace of Call Protocol primitives it performed. -/
structure CallResult where
  ret : Int
  trace : List Prim
  deriving DecidableEq

/-- Whether the status read reached a status value (as opposed to a
channel or codec error). -/
def Wire.statusRead (w : Wire) : Bool :=
  match w.statusOutcome with
  | Except.ok _ => true
  | Except.error _ => false

/-- Every channel interaction of the call succeeded; the status value
itself may still report a driver failure. -/
def noChannelError (w : Wire) : Prop :=
  w.beginCode = DB_OK ∧ w.sendTableCode = DB_OK ∧ w.sendColumnCode = DB_OK ∧
    w.statusRead = true

/-- Shallow embedding of db_drop_column
(src/lib/db/dbmi_client/c_drop_col.c).  The macros
DB_START_PROCEDURE_CALL, DB_SEND_STRING and DB_RECV_RETURN_CODE
(dbmi_client/macros.h, outside the visible fragment) are modelled from
the spec: each performs exactly one Call Protocol primitive and, when
that primitive reports an error code, makes the wrapper return that code
at once (section 7: channel and codec errors propagate uninterpreted,
never retried).  The preceding db__set_protocol_fds call only selects the
file descriptors of the session and performs no channel I/O, so it adds
nothing to the trace.  The trailing conditional mirrors the source: if
ret_code is not DB_OK it is returned as is, otherwise DB_OK is
returned and no result field is read (drop column has no results). -/
def db_drop_column (w : Wire) (tableName columnName : String) : CallResult :=
  if w.beginCode ≠ DB_OK then
    ⟨w.beginCode, [Prim.begin_call DB_PROC_DROP_COLUMN]⟩
  else if w.sendTableCode ≠ DB_OK then
    ⟨w.sendTableCode,
     [Prim.begin_call DB_PROC_DROP_COLUMN, Prim.send_arg tableName]⟩
  else if w.sendColumnCode ≠ DB_OK then
    ⟨w.sendColumnCode,
     [Prim.begin_call DB_PROC_DROP_COLUMN, Prim.send_arg tableName,
      Prim.send_arg columnName]⟩
  else
    match w.statusOutcome with
    | Except.error e =>
        ⟨e, [Prim.begin_call DB_PROC_DROP_COLUMN, Prim.send_arg tableName,
             Prim.send_arg columnName, Prim.recv_status (Except.error e)]⟩
    | Except.ok ret_code =>
        if ret_code ≠ DB_OK then
          ⟨ret_code,
           [Prim.begin_call DB_PROC_DROP_COLUMN, Prim.send_arg tableName,
            Prim.send_arg columnName, Prim.recv_status (Except.ok ret_code)]⟩
        else
          ⟨DB_OK,
           [Prim.begin_call DB_PROC_DROP_COLUMN, Prim.send_arg tableName,
            Prim.send_arg columnName, Prim.recv_status (Except.ok ret_code)]⟩

/-- The complete primitive sequence the drop-column descriptor
prescribes: the procedure identifier, the two string arguments in
descriptor order, then the status read. -/
def dropColumnCallTrace (tableName columnName : String)
    (st : Except Int Int) : List Prim :=
  [Prim.begin_call DB_PROC_DROP_COLUMN, Prim.send_arg tableName,
   Prim.send_arg columnName, Prim.recv_status st]

/-- A row of the Procedure Catalog: identifier, number of argument slots,
number of result slots. -/
structure ProcedureDescriptor where
  procId : Int
  argSlots : Nat
  resultSlots : Nat

/-- The drop-column descriptor: two string arguments (table name, column
name) and an empty result shape. -/
def dropColumnDescriptor : ProcedureDescriptor :=
  ⟨DB_PROC_DROP_COLUMN, 2, 0⟩

/-- Call Protocol state, per spec section 4.3; the argument and result
counters refine CallStarted, ArgsSent and StatusReceived with how many
slots of the descriptor remain. -/
inductive ProtoState where
  | idle
  | inCall (remainingArgs : Nat)
  | statusReceived (remainingResults : Nat)
  deriving DecidableEq

/-- One step of the Call Protocol state machine for a procedure with
descriptor d.  Modelled from the spec, section 4.3: begin_call is valid
only in Idle; send_arg only while argument slots remain; recv_status only
once all arguments are sent, returning to Idle on a failure status (no
result payload is read on failure) and, when the result shape is empty,
on success as well; a channel error during the status read aborts the
call and forces the protocol back to Idle. -/
def protoStep (d : ProcedureDescriptor) :
    ProtoState → Prim → Option ProtoState
  | ProtoState.idle, Prim.begin_call p =>
      if p = d.procId then some (ProtoState.inCall d.argSlots) else none
  | ProtoState.inCall (n + 1), Prim.send_arg _ => some (ProtoState.inCall n)
  | ProtoState.inCall 0, Prim.recv_status (Except.error _) =>
      some ProtoState.idle
  | ProtoState.inCall 0, Prim.recv_status (Except.ok c) =>
      if c = DB_OK then
        (if d.resultSlots = 0 then some ProtoState.idle
         else some (ProtoState.statusReceived d.resultSlots))
      else some ProtoState.idle
  | ProtoState.statusReceived (n + 1), Prim.recv_result =>
      if n = 0 then some ProtoState.idle
      else some (ProtoState.statusReceived n)
  | _, _ => none

/-- Run the Call Protocol state machine over a trace; none marks a
contract violation. -/
def runProto (d : ProcedureDescriptor) :
    ProtoState → List Prim → Option ProtoState
  | s, [] => some s
  | s, p :: ps =>
      match protoStep d s p with
      | some s2 => runProto d s2 ps
      | none => none

/-- Trace predicate: the primitive is a begin-call. -/
def isBeginPrim : Prim → Bool
  | Prim.begin_call _ => true
  | _ => false

/-- Trace predicate: the primitive is a status read. -/
def isRecvStatusPrim : Prim → Bool
  | Prim.recv_status _ => true
  | _ => false

/-- A wire on which every interaction succeeds and the driver reports
success. -/
def allOkWire : Wire := ⟨DB_OK, DB_OK, DB_OK, Except.ok DB_OK⟩

/-- A wire on which the channel works but the driver answers the failure
status DB_FAILED. -/
def driverFailWire : Wire := ⟨DB_OK, DB_OK, DB_OK, Except.ok DB_FAILED⟩

/-- A wire on which sending the first argument fails with the protocol
error code. -/
def sendFailWire : Wire := ⟨DB_OK, DB_PROTOCOL_ERR, DB_OK, Except.ok DB_OK⟩

/-- A wire on which writing the procedure identifier fails. -/
def beginFailWire : Wire := ⟨DB_PROTOCOL_ERR, DB_OK, DB_OK, Except.ok DB_OK⟩

end Dbmi

namespace RSurfRandom

/-- White space as the C isspace of the default locale: the space
character and the control characters 9 to 13. -/
def isSpaceChar (c : Char) : Bool :=
  c = ' ' || (9 ≤ c.toNat && c.toNat ≤ 13)

/-- Numeric value of a decimal digit character. -/
def digitVal (c : Char) : Nat := c.toNat - 48

/-- Value of a digit sequence read in base 10. -/
def digitsToNat (ds : List Char) : Nat :=
  ds.foldl (fun acc c => 10 * acc + digitVal c) 0

/-- Leading run of decimal digits as a scanned value with its length;
none when there is no digit. -/
def scanDigits (r : List Char) : Option (Int × Nat) :=
  let ds := r.takeWhile Char.isDigit
  if ds.length = 0 then none
  else some ((digitsToNat ds : Int), ds.length)

/-- Optional sign followed by at least one digit, with the number of
characters consumed. -/
def scanIntSigned : List Char → Option (Int × Nat)
  | '+' :: r => (scanDigits r).map (fun p => (p.1, p.2 + 1))
  | '-' :: r => (scanDigits r).map (fun p => (-p.1, p.2 + 1))
  | r => scanDigits r

/-- Model of the C library conversion sscanf(buffer, "%d%n", ...): skip
leading white space, read an optional sign and at least one decimal
digit, and yield the scanned value together with the total number of
characters consumed; none when no integer can be scanned. -/
def scanInt (s : String) : Option (Int × Nat) :=
  let cs := s.toList
  (scanIntSigned (cs.dropWhile isSpaceChar)).map
    (fun p => (p.1, (cs.takeWhile isSpaceChar).length + p.2))

/-- Shallow embedding of is_int_only (src/raster/r.surf.random/main.c):
TRUE exactly when sscanf reads one int and the characters read are the
whole buffer. -/
def is_int_only (buffer : String) : Bool :=
  match scanInt buffer with
  | some p => p.2 == buffer.length
  | none => false

/-- Powers of ten over the integers, defined structurally so that
concrete comparisons evaluate inside the kernel. -/
def pow10 : Nat → Int
  | 0 => 1
  | n + 1 => 10 * pow10 n

/-- Exact decimal number mant / 10 ^ scale.  It stands in for the C
double produced by atof: every decimal string of the claims denotes such
a number exactly, and the comparison below is its exact numeric order. -/
structure Dec10 where
  mant : Int
  scale : Nat
  deriving DecidableEq

/-- The rational value a Dec10 denotes. -/
def Dec10.toRat (d : Dec10) : ℚ :=
  (d.mant : ℚ) / (10 : ℚ) ^ d.scale

/-- Numeric order of two decimals by cross multiplication. -/
def Dec10.lt (a b : Dec10) : Prop :=
  a.mant * pow10 b.scale < b.mant * pow10 a.scale

instance : LT Dec10 := ⟨Dec10.lt⟩

instance (a b : Dec10) : Decidable (a < b) := Int.decLt _ _

/-- Negation of a decimal. -/
def Dec10.neg (d : Dec10) : Dec10 := ⟨-d.mant, d.scale⟩

/-- Exponent digits; none when there is no digit. -/
def expDigits (r : List Char) : Option Int :=
  let ds := r.takeWhile Char.isDigit
  if ds.length = 0 then none else some ((digitsToNat ds : Nat) : Int)

/-- Exponent after the letter e: optional sign then digits. -/
def expAfterE : List Char → Option Int
  | '+' :: r => expDigits r
  | '-' :: r => (expDigits r).map Neg.neg
  | r => expDigits r

/-- A whole exponent part, letter included; none when absent or
malformed (in which case strtod leaves it unconsumed). -/
def expPart : List Char → Option Int
  | 'e' :: r => expAfterE r
  | 'E' :: r => expAfterE r
  | _ => none

/-- Apply an optional exponent part to a parsed magnitude: a positive
exponent scales the mantissa up, a negative one deepens the scale. -/
def applyExp (v : Dec10) (r : List Char) : Dec10 :=
  match expPart r with
  | some e =>
      if 0 ≤ e then ⟨v.mant * pow10 e.toNat, v.scale⟩
      else ⟨v.mant, v.scale + e.natAbs⟩
  | none => v

/-- Magnitude part of the C library strtod on a decimal string: digits,
an optional point with fraction digits, an optional exponent; 0 when no
digit can be converted at all. -/
def atofMagnitude (cs : List Char) : Dec10 :=
  let ipart := cs.takeWhile Char.isDigit
  let rest := cs.dropWhile Char.isDigit
  match rest with
  | '.' :: r =>
      let fpart := r.takeWhile Char.isDigit
      let rest2 := r.dropWhile Char.isDigit
      if ipart.length = 0 && fpart.length = 0 then ⟨0, 0⟩
      else applyExp ⟨(digitsToNat (ipart ++ fpart) : Int), fpart.length⟩ rest2
  | _ =>
      if ipart.length = 0 then ⟨0, 0⟩
      else applyExp ⟨(digitsToNat ipart : Int), 0⟩ rest

/-- Model of the C library atof: skip white space, read an optional sign
and a decimal number; 0 when nothing can be converted.  The exact decimal
value stands in for the double. -/
def atofD (s : String) : Dec10 :=
  match s.toList.dropWhile isSpaceChar with
  | '+' :: r => atofMagnitude r
  | '-' :: r => Dec10.neg (atofMagnitude r)
  | r => atofMagnitude r

/-- Observable actions of the r.surf.random main function.  The alphabet
also contains the actions of the RPC core (a Call Protocol primitive or a
driver session open) so that their absence is expressible. -/
inductive REv where
  | gisinit
  | randsurf (outName : String) (minValue maxValue : Dec10) (intFlag : Bool)
  | putCellTitle (outName : String)
  | writeHistory (outName : String)
  | doneMsg (outName : String)
  | dbPrim (p : Dbmi.Prim)
  | dbSessionOpen
  deriving DecidableEq

/-- How the r.surf.random main function terminates. -/
inductive ROut where
  | exitSuccess
  | exitFailure
  | fatalNotInt (key answer : String)
  | fatalMinMax (minAnswer maxAnswer : String)
  deriving DecidableEq

/-- The parsed command line reaching main: whether G_parser failed, the
answers of the output, min and max options (min defaults to 0, max to
100), and the -i flag. -/
structure CmdLine where
  parserFails : Bool
  outAnswer : String
  minAnswer : String
  maxAnswer : String
  iFlag : Bool
  deriving DecidableEq

/-- Shallow embedding of option_must_be_int
(src/raster/r.surf.random/main.c): the fatal error it raises when the
option answer is not integer-only, none when the check passes. -/
def option_must_be_int (key answer : String) : Option ROut :=
  if is_int_only answer then none else some (ROut.fatalNotInt key answer)

/-- Shallow embedding of the r.surf.random main function
(src/raster/r.surf.random/main.c): the trace of observable actions and
the way the run terminates.  G_fatal_error does not return, so a fatal
outcome ends the run with no further event; on the main path randsurf,
the title write, the history writes and the final message are recorded in
program order. -/
def rSurfRandomMain (cmd : CmdLine) : List REv × ROut :=
  if cmd.parserFails then ([REv.gisinit], ROut.exitFailure)
  else
    match (if cmd.iFlag then option_must_be_int "min" cmd.minAnswer
           else none) with
    | some f => ([REv.gisinit], f)
    | none =>
      match (if cmd.iFlag then option_must_be_int "max" cmd.maxAnswer
             else none) with
      | some f => ([REv.gisinit], f)
      | none =>
        if atofD cmd.maxAnswer < atofD cmd.minAnswer then
          ([REv.gisinit], ROut.fatalMinMax cmd.minAnswer cmd.maxAnswer)
        else
          ([REv.gisinit,
            REv.randsurf cmd.outAnswer (atofD cmd.minAnswer)
              (atofD cmd.maxAnswer) cmd.iFlag,
            REv.putCellTitle cmd.outAnswer,
            REv.writeHistory cmd.outAnswer,
            REv.doneMsg cmd.outAnswer],
           ROut.exitSuccess)

/-- The action is one of the RPC core. -/
def isDbEvent : REv → Bool
  | REv.dbPrim _ => true
  | REv.dbSessionOpen => true
  | _ => false

/-- The action is the randsurf call. -/
def isRandsurfEv : REv → Bool
  | REv.randsurf _ _ _ _ => true
  | _ => false

/-- The run ended in a G_fatal_error. -/
def isFatal : ROut → Bool
  | ROut.fatalNotInt _ _ => true
  | ROut.fatalMinMax _ _ => true
  | _ => false

end RSurfRandom

namespace Dbmi

/-- When writing the procedure identifier fails, the wrapper returns the
error code with only the begin-call performed. -/
lemma drop_col_begin_fail {w : Wire} {tbl col : String}
    (hb : w.beginCode ≠ DB_OK) :
    db_drop_column w tbl col =
      ⟨w.beginCode, [Prim.begin_call DB_PROC_DROP_COLUMN]⟩ := by
  simp [db_drop_column, hb]

/-- When sending the table name fails, the wrapper returns the error code
after the begin-call and that one send. -/
lemma drop_col_send1_fail {w : Wire} {tbl col : String}
    (hb : w.beginCode = DB_OK) (h1 : w.sendTableCode ≠ DB_OK) :
    db_drop_column w tbl col =
      ⟨w.sendTableCode,
       [Prim.begin_call DB_PROC_DROP_COLUMN, Prim.send_arg tbl]⟩ := by
  simp [db_drop_column, hb, h1]

/-- When sending the column name fails, the wrapper returns the error
code after the begin-call and the two sends. -/
lemma drop_col_send2_fail {w : Wire} {tbl col : String}
    (hb : w.beginCode = DB_OK) (h1 : w.sendTableCode = DB_OK)
    (h2 : w.sendColumnCode ≠ DB_OK) :
    db_drop_column w tbl col =
      ⟨w.sendColumnCode,
       [Prim.begin_call DB_PROC_DROP_COLUMN, Prim.send_arg tbl,
        Prim.send_arg col]⟩ := by
  simp [db_drop_column, hb, h1, h2]

/-- When the status read itself fails, the wrapper returns the channel
error code after the full primitive sequence. -/
lemma drop_col_status_err {w : Wire} {tbl col : String} {e : Int}
    (hb : w.beginCode = DB_OK) (h1 : w.sendTableCode = DB_OK)
    (h2 : w.sendColumnCode = DB_OK)
    (hst : w.statusOutcome = Except.error e) :
    db_drop_column w tbl col =
      ⟨e, dropColumnCallTrace tbl col (Except.error e)⟩ := by
  simp [db_drop_column, hb, h1, h2, hst, dropColumnCallTrace]

/-- When the status read yields a status value, the wrapper returns that
value after the full primitive sequence. -/
lemma drop_col_status_ok {w : Wire} {tbl col : String} {c : Int}
    (hb : w.beginCode = DB_OK) (h1 : w.sendTableCode = DB_OK)
    (h2 : w.sendColumnCode = DB_OK) (hst : w.statusOutcome = Except.ok c) :
    db_drop_column w tbl col =
      ⟨c, dropColumnCallTrace tbl col (Except.ok c)⟩ := by
  by_cases hc : c = DB_OK <;>
    simp [db_drop_column, hb, h1, h2, hst, hc, dropColumnCallTrace]

/-- Running the protocol over an appended trace composes. -/
lemma runProto_append (d : ProcedureDescriptor) (s : ProtoState)
    (l1 l2 : List Prim) :
    runProto d s (l1 ++ l2) =
      (runProto d s l1).bind (fun s2 => runProto d s2 l2) := by
  induction l1 generalizing s with
  | nil => simp [runProto]
  | cons p ps ih =>
      simp only [List.cons_append, runProto]
      cases h : protoStep d s p with
      | none => simp
      | some s2 => simp [ih]

/-- Two protocol-complete traces chain into one protocol-complete
trace. -/
lemma runProto_chain {d : ProcedureDescriptor} {l1 l2 : List Prim}
    (h1 : runProto d ProtoState.idle l1 = some ProtoState.idle)
    (h2 : runProto d ProtoState.idle l2 = some ProtoState.idle) :
    runProto d ProtoState.idle (l1 ++ l2) = some ProtoState.idle := by
  rw [runProto_append, h1]
  exact h2

/-- The full drop-column trace with a received status value is accepted
by the Call Protocol and ends back in Idle, for success and for every
failure status alike (the result shape is empty). -/
lemma runProto_dropColumn_ok (tableName columnName : String) (c : Int) :
    runProto dropColumnDescriptor ProtoState.idle
      (dropColumnCallTrace tableName columnName (Except.ok c)) =
        some ProtoState.idle := by
  have h3 : runProto dropColumnDescriptor ProtoState.idle
      [Prim.begin_call DB_PROC_DROP_COLUMN, Prim.send_arg tableName,
       Prim.send_arg columnName] = some (ProtoState.inCall 0) := rfl
  have h4 : dropColumnCallTrace tableName columnName (Except.ok c) =
      [Prim.begin_call DB_PROC_DROP_COLUMN, Prim.send_arg tableName,
       Prim.send_arg columnName] ++ [Prim.recv_status (Except.ok c)] := rfl
  rw [h4, runProto_append, h3]
  by_cases hc : c = DB_OK <;>
    simp [runProto, protoStep, dropColumnDescriptor, hc]

/-- The drop-column trace ending in a failed status read is likewise
accepted, the abort forcing the protocol back to Idle. -/
lemma runProto_dropColumn_err (tableName columnName : String) (e : Int) :
    runProto dropColumnDescriptor ProtoState.idle
      (dropColumnCallTrace tableName columnName (Except.error e)) =
        some ProtoState.idle := rfl

/-- C1: every call of db_drop_column issues the Call Protocol primitives
in the order the drop-column descriptor prescribes — the procedure
identifier DB_PROC_DROP_COLUMN first, then the tableName argument, then
the columnName argument, then the status read — with no other I/O
interleaved: the trace is always a prefix of that sequence, and when no
channel error cuts the call short it is exactly that sequence. -/
theorem db_drop_column_descriptor_order (w : Wire)
    (tableName columnName : String) :
    (db_drop_column w tableName columnName).trace <+:
      dropColumnCallTrace tableName columnName w.statusOutcome ∧
    (noChannelError w →
      (db_drop_column w tableName columnName).trace =
        dropColumnCallTrace tableName columnName w.statusOutcome) := by
  by_cases hb : w.beginCode = DB_OK
  · by_cases h1 : w.sendTableCode = DB_OK
    · by_cases h2 : w.sendColumnCode = DB_OK
      · rcases hst : w.statusOutcome with e | c
        · rw [drop_col_status_err hb h1 h2 hst]
          exact ⟨List.prefix_rfl, fun _ => rfl⟩
        · rw [drop_col_status_ok hb h1 h2 hst]
          exact ⟨List.prefix_rfl, fun _ => rfl⟩
      · rw [drop_col_send2_fail hb h1 h2]
        exact ⟨⟨[Prim.recv_status w.statusOutcome], rfl⟩,
          fun hn => absurd hn.2.2.1 h2⟩
    · rw [drop_col_send1_fail hb h1]
      exact ⟨⟨[Prim.send_arg columnName, Prim.recv_status w.statusOutcome],
        rfl⟩, fun hn => absurd hn.2.1 h1⟩
  · rw [drop_col_begin_fail hb]
    exact ⟨⟨[Prim.send_arg tableName, Prim.send_arg columnName,
      Prim.recv_status w.statusOutcome], rfl⟩, fun hn => absurd hn.1 hb⟩

/-- Witness for C1 at a concrete call with a cooperating wire. -/
theorem db_drop_column_descriptor_order_witness :
    (db_drop_column allOkWire "employees" "salary").trace =
      dropColumnCallTrace "employees" "salary" (Except.ok DB_OK) :=
  (db_drop_column_descriptor_order allOkWire "employees" "salary").2
    ⟨rfl, rfl, rfl, rfl⟩

/-- C2: when the received status code is not DB_OK, db_drop_column
returns that code right after the status read — the trace ends at the
status read — and never performs a recv_result primitive. -/
theorem db_drop_column_failure_no_result (w : Wire)
    (tableName columnName : String) (c : Int)
    (hb : w.beginCode = DB_OK) (h1 : w.sendTableCode = DB_OK)
    (h2 : w.sendColumnCode = DB_OK) (hst : w.statusOutcome = Except.ok c)
    (_hc : c ≠ DB_OK) :
    (db_drop_column w tableName columnName).ret = c ∧
    (db_drop_column w tableName columnName).trace =
      dropColumnCallTrace tableName columnName (Except.ok c) ∧
    Prim.recv_result ∉ (db_drop_column w tableName columnName).trace := by
  rw [drop_col_status_ok hb h1 h2 hst]
  exact ⟨rfl, rfl, by simp [dropColumnCallTrace]⟩

/-- Witness for C2: a driver that answers DB_FAILED. -/
theorem db_drop_column_failure_no_result_witness :
    (db_drop_column driverFailWire "employees" "salary").ret = DB_FAILED ∧
    (db_drop_column driverFailWire "employees" "salary").trace =
      dropColumnCallTrace "employees" "salary" (Except.ok DB_FAILED) ∧
    Prim.recv_result ∉ (db_drop_column driverFailWire "employees" "salary").trace :=
  db_drop_column_failure_no_result driverFailWire "employees" "salary"
    DB_FAILED rfl rfl rfl rfl (by decide)

/-- C3: a driver-reported failure status is returned to the caller as
that very code, the Call Protocol is left back in Idle, and a subsequent
call on the same channel runs to completion and succeeds. -/
theorem db_drop_column_failure_subcode_reusable (w w2 : Wire)
    (tableName columnName tableName2 columnName2 : String) (c : Int)
    (hb : w.beginCode = DB_OK) (h1 : w.sendTableCode = DB_OK)
    (h2 : w.sendColumnCode = DB_OK) (hst : w.statusOutcome = Except.ok c)
    (_hc : c ≠ DB_OK)
    (hb2 : w2.beginCode = DB_OK) (h12 : w2.sendTableCode = DB_OK)
    (h22 : w2.sendColumnCode = DB_OK)
    (hst2 : w2.statusOutcome = Except.ok DB_OK) :
    (db_drop_column w tableName columnName).ret = c ∧
    runProto dropColumnDescriptor ProtoState.idle
      (db_drop_column w tableName columnName).trace = some ProtoState.idle ∧
    (db_drop_column w2 tableName2 columnName2).ret = DB_OK ∧
    runProto dropColumnDescriptor ProtoState.idle
      ((db_drop_column w tableName columnName).trace ++
        (db_drop_column w2 tableName2 columnName2).trace) =
          some ProtoState.idle := by
  rw [drop_col_status_ok hb h1 h2 hst, drop_col_status_ok hb2 h12 h22 hst2]
  exact ⟨rfl, runProto_dropColumn_ok _ _ _, rfl,
    runProto_chain (runProto_dropColumn_ok _ _ _)
      (runProto_dropColumn_ok _ _ _)⟩

/-- Witness for C3: the driver rejects the first call with DB_FAILED
(standing for a specific subcode such as column not found) and the next
call on the same channel succeeds. -/
theorem db_drop_column_failure_subcode_reusable_witness :
    (db_drop_column driverFailWire "employees" "salary").ret = DB_FAILED ∧
    runProto dropColumnDescriptor ProtoState.idle
      (db_drop_column driverFailWire "employees" "salary").trace =
        some ProtoState.idle ∧
    (db_drop_column allOkWire "people" "age").ret = DB_OK ∧
    runProto dropColumnDescriptor ProtoState.idle
      ((db_drop_column driverFailWire "employees" "salary").trace ++
        (db_drop_column allOkWire "people" "age").trace) =
          some ProtoState.idle :=
  db_drop_column_failure_subcode_reusable driverFailWire allOkWire
    "employees" "salary" "people" "age" DB_FAILED
    rfl rfl rfl rfl (by decide) rfl rfl rfl rfl

/-- C4: on a success status db_drop_column returns DB_OK, reads no
result field (the drop-column result shape is empty), and leaves the
Call Protocol back in Idle so that a subsequent call on the same channel
succeeds. -/
theorem db_drop_column_success_idle_reusable (w w2 : Wire)
    (tableName columnName tableName2 columnName2 : String)
    (hb : w.beginCode = DB_OK) (h1 : w.sendTableCode = DB_OK)
    (h2 : w.sendColumnCode = DB_OK)
    (hst : w.statusOutcome = Except.ok DB_OK)
    (hb2 : w2.beginCode = DB_OK) (h12 : w2.sendTableCode = DB_OK)
    (h22 : w2.sendColumnCode = DB_OK)
    (hst2 : w2.statusOutcome = Except.ok DB_OK) :
    (db_drop_column w tableName columnName).ret = DB_OK ∧
    Prim.recv_result ∉ (db_drop_column w tableName columnName).trace ∧
    runProto dropColumnDescriptor ProtoState.idle
      (db_drop_column w tableName columnName).trace = some ProtoState.idle ∧
    (db_drop_column w2 tableName2 columnName2).ret = DB_OK ∧
    runProto dropColumnDescriptor ProtoState.idle
      ((db_drop_column w tableName columnName).trace ++
        (db_drop_column w2 tableName2 columnName2).trace) =
          some ProtoState.idle := by
  rw [drop_col_status_ok hb h1 h2 hst, drop_col_status_ok hb2 h12 h22 hst2]
  exact ⟨rfl, by simp [dropColumnCallTrace], runProto_dropColumn_ok _ _ _,
    rfl, runProto_chain (runProto_dropColumn_ok _ _ _)
      (runProto_dropColumn_ok _ _ _)⟩

/-- Witness for C4 at two concrete successful calls on one channel. -/
theorem db_drop_column_success_idle_reusable_witness :
    (db_drop_column allOkWire "employees" "salary").ret = DB_OK ∧
    Prim.recv_result ∉ (db_drop_column allOkWire "employees" "salary").trace ∧
    runProto dropColumnDescriptor ProtoState.idle
      (db_drop_column allOkWire "employees" "salary").trace =
        some ProtoState.idle ∧
    (db_drop_column allOkWire "people" "age").ret = DB_OK ∧
    runProto dropColumnDescriptor ProtoState.idle
      ((db_drop_column allOkWire "employees" "salary").trace ++
        (db_drop_column allOkWire "people" "age").trace) =
          some ProtoState.idle :=
  db_drop_column_success_idle_reusable allOkWire allOkWire
    "employees" "salary" "people" "age" rfl rfl rfl rfl rfl rfl rfl rfl

/-- C5 (amended): every execution performs exactly one begin-call and at
most one status read, and on every execution the channel I/O of which
completes — the driver-failure path included — the begin-call is matched
by exactly one status read; an execution aborted before the status read
performs no status read at all. -/
theorem db_drop_column_begin_status_counts (w : Wire)
    (tableName columnName : String) :
    (db_drop_column w tableName columnName).trace.countP isBeginPrim = 1 ∧
    (db_drop_column w tableName columnName).trace.countP isRecvStatusPrim ≤ 1 ∧
    (noChannelError w →
      (db_drop_column w tableName columnName).trace.countP isRecvStatusPrim
        = 1) := by
  by_cases hb : w.beginCode = DB_OK
  · by_cases h1 : w.sendTableCode = DB_OK
    · by_cases h2 : w.sendColumnCode = DB_OK
      · rcases hst : w.statusOutcome with e | c
        · rw [drop_col_status_err hb h1 h2 hst]
          refine ⟨by simp [dropColumnCallTrace, isBeginPrim, isRecvStatusPrim],
            by simp [dropColumnCallTrace, isBeginPrim, isRecvStatusPrim], ?_⟩
          intro hn
          simp [dropColumnCallTrace, isBeginPrim, isRecvStatusPrim]
        · rw [drop_col_status_ok hb h1 h2 hst]
          exact ⟨by simp [dropColumnCallTrace, isBeginPrim, isRecvStatusPrim],
            by simp [dropColumnCallTrace, isBeginPrim, isRecvStatusPrim],
            fun _ => by
              simp [dropColumnCallTrace, isBeginPrim, isRecvStatusPrim]⟩
      · rw [drop_col_send2_fail hb h1 h2]
        exact ⟨by simp [isBeginPrim, isRecvStatusPrim],
          by simp [isBeginPrim, isRecvStatusPrim],
          fun hn => absurd hn.2.2.1 h2⟩
    · rw [drop_col_send1_fail hb h1]
      exact ⟨by simp [isBeginPrim, isRecvStatusPrim],
        by simp [isBeginPrim, isRecvStatusPrim],
        fun hn => absurd hn.2.1 h1⟩
  · rw [drop_col_begin_fail hb]
    exact ⟨by simp [isBeginPrim, isRecvStatusPrim],
      by simp [isBeginPrim, isRecvStatusPrim],
      fun hn => absurd hn.1 hb⟩

/-- Witness for the amended C5 on the driver-failure path. -/
theorem db_drop_column_begin_status_counts_witness :
    (db_drop_column driverFailWire "employees" "salary").trace.countP
      isRecvStatusPrim = 1 :=
  (db_drop_column_begin_status_counts driverFailWire "employees"
    "salary").2.2 ⟨rfl, rfl, rfl, rfl⟩

/-- Counterexample to C5 as stated: when sending the first argument
fails, the call aborts and the one begin-call is matched by no status
read at all, so a status read does not happen on every path. -/
theorem db_drop_column_aborted_call_unmatched :
    (db_drop_column sendFailWire "employees" "salary").trace.countP
      isBeginPrim = 1 ∧
    (db_drop_column sendFailWire "employees" "salary").trace.countP
      isRecvStatusPrim = 0 := by
  decide

/-- C6: a channel or codec error arising at any primitive — the
procedure-id write, either argument send, or the status read — makes
db_drop_column return that error code unchanged, with the trace ending at
the failing primitive: nothing is retried, translated or swallowed. -/
theorem db_drop_column_propagates_channel_errors (w : Wire)
    (tableName columnName : String) :
    (w.beginCode ≠ DB_OK →
      db_drop_column w tableName columnName =
        ⟨w.beginCode, [Prim.begin_call DB_PROC_DROP_COLUMN]⟩) ∧
    (w.beginCode = DB_OK → w.sendTableCode ≠ DB_OK →
      db_drop_column w tableName columnName =
        ⟨w.sendTableCode,
         [Prim.begin_call DB_PROC_DROP_COLUMN, Prim.send_arg tableName]⟩) ∧
    (w.beginCode = DB_OK → w.sendTableCode = DB_OK →
      w.sendColumnCode ≠ DB_OK →
      db_drop_column w tableName columnName =
        ⟨w.sendColumnCode,
         [Prim.begin_call DB_PROC_DROP_COLUMN, Prim.send_arg tableName,
          Prim.send_arg columnName]⟩) ∧
    (∀ e : Int, w.beginCode = DB_OK → w.sendTableCode = DB_OK →
      w.sendColumnCode = DB_OK → w.statusOutcome = Except.error e →
      db_drop_column w tableName columnName =
        ⟨e, dropColumnCallTrace tableName columnName (Except.error e)⟩) :=
  ⟨fun hb => drop_col_begin_fail hb,
   fun hb h1 => drop_col_send1_fail hb h1,
   fun hb h1 h2 => drop_col_send2_fail hb h1 h2,
   fun _ hb h1 h2 hst => drop_col_status_err hb h1 h2 hst⟩

/-- Witness for C6: a failing procedure-id write propagates its code. -/
theorem db_drop_column_propagates_channel_errors_witness :
    db_drop_column beginFailWire "employees" "salary" =
      ⟨DB_PROTOCOL_ERR, [Prim.begin_call DB_PROC_DROP_COLUMN]⟩ :=
  (db_drop_column_propagates_channel_errors beginFailWire "employees"
    "salary").1 (by decide)

end Dbmi

namespace RSurfRandom

/-- The structural powers of ten agree with the monoid power. -/
lemma pow10_eq (k : Nat) : pow10 k = (10 : Int) ^ k := by
  induction k with
  | zero => rfl
  | succ n ih => simp [pow10, ih, pow_succ, mul_comm]

/-- The cross-multiplication order of two decimals is their numeric
order as rationals. -/
lemma Dec10.lt_iff_toRat (a b : Dec10) : a < b ↔ a.toRat < b.toRat := by
  show Dec10.lt a b ↔ _
  unfold Dec10.lt Dec10.toRat
  rw [div_lt_div_iff₀ (by positivity) (by positivity), pow10_eq, pow10_eq]
  constructor
  · intro h; exact_mod_cast h
  · intro h; exact_mod_cast h

/-- C7: no execution of the r.surf.random main function performs any
action of the RPC core — no driver session is opened and no Call
Protocol primitive is performed on a driver channel, whatever the
command line. -/
theorem r_surf_random_main_no_rpc (cmd : CmdLine) :
    (rSurfRandomMain cmd).1.all (fun e => !isDbEvent e) = true := by
  unfold rSurfRandomMain
  repeat' split
  all_goals simp [isDbEvent]

/-- C8: is_int_only s is TRUE exactly when the sscanf integer scan
succeeds on s and consumes every character of s; in particular it is
FALSE on the empty string, on a fractional number such as 5.5 and on
digits with trailing characters, and TRUE on plain integers. -/
theorem is_int_only_iff_full_scan :
    (∀ s : String, is_int_only s = true ↔
        ∃ v : Int, scanInt s = some (v, s.length)) ∧
    is_int_only "" = false ∧
    is_int_only "5.5" = false ∧
    is_int_only "123abc" = false ∧
    is_int_only "42" = true ∧
    is_int_only "-7" = true := by
  refine ⟨?_, by decide, by decide, by decide, by decide, by decide⟩
  intro s
  unfold is_int_only
  rcases h : scanInt s with _ | ⟨v, n⟩
  · simp
  · simp [beq_iff_eq]

/-- C9: with the -i flag set, the randsurf call is reached only when
both the min and the max answers are integer-only strings; without the
flag no integer check happens and fractional bounds are accepted. -/
theorem integer_flag_gates_randsurf :
    (∀ cmd : CmdLine, cmd.iFlag = true →
        (rSurfRandomMain cmd).1.any isRandsurfEv = true →
        is_int_only cmd.minAnswer = true ∧
          is_int_only cmd.maxAnswer = true) ∧
    ((rSurfRandomMain ⟨false, "out", "0.5", "2.5", false⟩).1.any
        isRandsurfEv = true ∧
      (rSurfRandomMain ⟨false, "out", "0.5", "2.5", false⟩).2 =
        ROut.exitSuccess) := by
  constructor
  · intro cmd hflag hreach
    by_cases hp : cmd.parserFails = true
    · simp [rSurfRandomMain, hp, isRandsurfEv] at hreach
    · by_cases hmin : is_int_only cmd.minAnswer = true
      · by_cases hmax : is_int_only cmd.maxAnswer = true
        · exact ⟨hmin, hmax⟩
        · simp only [Bool.not_eq_true] at hmax
          simp [rSurfRandomMain, hp, hflag, option_must_be_int, hmin, hmax,
            isRandsurfEv] at hreach
      · simp only [Bool.not_eq_true] at hmin
        simp [rSurfRandomMain, hp, hflag, option_must_be_int, hmin,
          isRandsurfEv] at hreach
  · exact ⟨by decide, by decide⟩

/-- Witness for C9: with the flag set and the bounds 1 and 5 the raster
is produced, so the theorem yields that both answers are integer-only. -/
theorem integer_flag_gates_randsurf_witness :
    is_int_only "1" = true ∧ is_int_only "5" = true :=
  integer_flag_gates_randsurf.1 ⟨false, "out", "1", "5", true⟩ rfl
    (by decide)

/-- C10: when the parsed min exceeds the parsed max a fatal error is
raised and no raster is produced; equal parsed bounds pass the check and
reach randsurf (provided the integer check, when enabled, passes). -/
theorem min_greater_than_max_is_fatal :
    (∀ cmd : CmdLine, cmd.parserFails = false →
        (atofD cmd.maxAnswer).toRat < (atofD cmd.minAnswer).toRat →
        isFatal (rSurfRandomMain cmd).2 = true ∧
          (rSurfRandomMain cmd).1.any isRandsurfEv = false) ∧
    (∀ cmd : CmdLine, cmd.parserFails = false →
        (atofD cmd.minAnswer).toRat = (atofD cmd.maxAnswer).toRat →
        (cmd.iFlag = true →
          is_int_only cmd.minAnswer = true ∧
            is_int_only cmd.maxAnswer = true) →
        (rSurfRandomMain cmd).1.any isRandsurfEv = true) := by
  constructor
  · intro cmd hp hgt
    have hlt : atofD cmd.maxAnswer < atofD cmd.minAnswer :=
      (Dec10.lt_iff_toRat _ _).mpr hgt
    by_cases hil : cmd.iFlag = true
    · by_cases hmin : is_int_only cmd.minAnswer = true
      · by_cases hmax : is_int_only cmd.maxAnswer = true
        · refine ⟨?_, ?_⟩ <;>
            simp [rSurfRandomMain, hp, hil, hmin, hmax, option_must_be_int,
              hlt, isFatal, isRandsurfEv]
        · simp only [Bool.not_eq_true] at hmax
          refine ⟨?_, ?_⟩ <;>
            simp [rSurfRandomMain, hp, hil, hmin, hmax, option_must_be_int,
              isFatal, isRandsurfEv]
      · simp only [Bool.not_eq_true] at hmin
        refine ⟨?_, ?_⟩ <;>
          simp [rSurfRandomMain, hp, hil, hmin, option_must_be_int, isFatal,
            isRandsurfEv]
    · simp only [Bool.not_eq_true] at hil
      refine ⟨?_, ?_⟩ <;>
        simp [rSurfRandomMain, hp, hil, option_must_be_int, hlt, isFatal,
          isRandsurfEv]
  · intro cmd hp heq hint
    have hnlt : ¬(atofD cmd.maxAnswer < atofD cmd.minAnswer) := by
      intro hlt
      have hq := (Dec10.lt_iff_toRat _ _).mp hlt
      rw [heq] at hq
      exact lt_irrefl _ hq
    by_cases hil : cmd.iFlag = true
    · obtain ⟨hmin, hmax⟩ := hint hil
      simp [rSurfRandomMain, hp, hil, hmin, hmax, option_must_be_int, hnlt,
        isRandsurfEv]
    · simp only [Bool.not_eq_true] at hil
      simp [rSurfRandomMain, hp, hil, option_must_be_int, hnlt, isRandsurfEv]

/-- Witness for C10: min 5 with max 4 is fatal with no raster, and the
equal bounds 3 and 3 reach randsurf. -/
theorem min_greater_than_max_is_fatal_witness :
    (isFatal (rSurfRandomMain ⟨false, "out", "5", "4", false⟩).2 = true ∧
      (rSurfRandomMain ⟨false, "out", "5", "4", false⟩).1.any isRandsurfEv
        = false) ∧
    (rSurfRandomMain ⟨false, "out", "3", "3", false⟩).1.any isRandsurfEv
      = true :=
  ⟨min_greater_than_max_is_fatal.1 ⟨false, "out", "5", "4", false⟩ rfl
      ((Dec10.lt_iff_toRat _ _).mp (by decide)),
   min_greater_than_max_is_fatal.2 ⟨false, "out", "3", "3", false⟩ rfl rfl
      (fun h => nomatch h)⟩

end RSurfRandom

end Grass
